import Mathlib

/-!
Shallow embedding of the `exception` Rust library (src/lib.rs): a two-variant
error container `Exception<E>` distinguishing recoverable (typed) from
unrecoverable (opaque-report) failures, together with its constructors,
accessors, conversion protocol, result combinators and the `Finalize`
capability. Rust `Result<T, E>` is embedded as `Except E T` (error type
first), and the external `eyre::Report` is modelled abstractly by its
display message.
-/

namespace RustException

/-- Opaque error report (external `eyre::Report`), modelled by the one thing
the library ever reads from it: its display message. -/
structure Report where
  msg : String
deriving DecidableEq, Repr

/-- Display of a report is its message. -/
def Report.display (r : Report) : String :=
  r.msg

/-- Uninhabited recoverable-error type (src/lib.rs lines 148-151):
`pub enum Unrecoverable {}` has no constructors, so no value of it exists. -/
inductive Unrecoverable : Type

/-- Two-variant container (src/lib.rs lines 10-16):
`enum Exception<E> { Unrecoverable(eyre::Report), Recoverable(E) }`. -/
inductive Exception (E : Type) : Type where
  | unrecoverable (r : Report)
  | recoverable (e : E)
deriving DecidableEq, Repr

/-- Method `Exception::<Unrecoverable>::into_unrecoverable` (lines 18-25):
returns the wrapped report; the `Recoverable` arm is the source code
`unreachable!()`, embedded as elimination of the empty type. -/
def Exception.into_unrecoverable : Exception Unrecoverable → Report
  | .unrecoverable r => r
  | .recoverable e => nomatch e

/-- Constructor `Exception::new_recoverable` (lines 28-30). The source takes
`e: impl Into<eyre::Report>` — here the conversion is passed explicitly as
`toReport` — and its body builds `Self::Unrecoverable(e.into())`. -/
def Exception.new_recoverable {E α : Type} (toReport : α → Report) (e : α) :
    Exception E :=
  .unrecoverable (toReport e)

/-- Constructor `Exception::new_unrecoverable` (lines 32-34). The source takes
`e: E` and its body builds `Self::Recoverable(e)`. -/
def Exception.new_unrecoverable {E : Type} (e : E) : Exception E :=
  .recoverable e

/-- Method `Exception::is_recoverable` (lines 36-38):
`matches!(self, Self::Recoverable(_))`. -/
def Exception.is_recoverable {E : Type} : Exception E → Bool
  | .recoverable _ => true
  | .unrecoverable _ => false

/-- Method `Exception::try_into_recoverable` (lines 54-59): returns
`Ok(e)` on the `Recoverable` variant, otherwise gives back the original
value as the error. -/
def Exception.try_into_recoverable {E : Type} :
    Exception E → Except (Exception E) E
  | .recoverable e => .ok e
  | e => .error e

/-- Method `Exception::try_into_unrecoverable` (lines 75-80): returns
`Ok(report)` on the `Unrecoverable` variant, otherwise gives back the
original value as the error. -/
def Exception.try_into_unrecoverable {E : Type} :
    Exception E → Except (Exception E) Report
  | .unrecoverable r => .ok r
  | e => .error e

/-- Method `Exception::split` (lines 83-88): splits into
`(Option<eyre::Report>, Option<E>)`. -/
def Exception.split {E : Type} : Exception E → Option Report × Option E
  | .unrecoverable r => (some r, none)
  | .recoverable e => (none, some e)

/-- Method `Exception::map` (lines 91-99): applies `f` to a `Recoverable`
payload and passes an `Unrecoverable` report through untouched. -/
def Exception.map {E T : Type} (x : Exception E) (f : E → T) : Exception T :=
  match x with
  | .unrecoverable r => .unrecoverable r
  | .recoverable e => .recoverable (f e)

/-- Method `Exception::map_into` (lines 102-107): `self.map(Into::into)`,
with the `Into<T>` conversion passed explicitly. -/
def Exception.map_into {E T : Type} (conv : E → T) (x : Exception E) :
    Exception T :=
  x.map conv

/-- Capability marker, the auto trait `RecoverableError` (line 112). It holds
for every ordinary error type by default; the two negative impls (lines
114-117) withhold it from `Exception<T>` and from `Unrecoverable`, which is
mirrored here by declaring no instance for those two types. -/
class RecoverableError (T : Type) : Prop

instance : RecoverableError String := ⟨⟩

instance : RecoverableError Nat := ⟨⟩

/-- Blanket conversion `impl<T, E> From<T> for Exception<E> where
T: RecoverableError + Into<E>` (lines 121-128): the declared value conversion
`T → E` is passed explicitly as `conv`, and the body is
`Exception::Recoverable(error.into())`. -/
def Exception.from_raw {T E : Type} (conv : T → E) (error : T) : Exception E :=
  .recoverable (conv error)

/-- Conversion `impl<E> From<eyre::Report> for Exception<E>` (lines
142-146): `Exception::Unrecoverable(error)`. -/
def Exception.from_report {E : Type} (error : Report) : Exception E :=
  .unrecoverable error

/-- Alias `ExceptionResult<T, E> = Result<T, Exception<E>>` (line 153). -/
abbrev ExceptionResult (T : Type) (E : Type := Unrecoverable) : Type :=
  Except (Exception E) T

/-- Extension method `ExceptionResultExt::map_exception` (lines 158-163):
`self.map_err(|e| e.map(f))`. -/
def ExceptionResult.map_exception {T E F : Type} (res : ExceptionResult T E)
    (f : E → F) : ExceptionResult T F :=
  match res with
  | .ok t => .ok t
  | .error e => .error (e.map f)

/-- Extension method `ExceptionResultExt::split` (lines 177-185): success
stays doubly `Ok`, a `Recoverable` error moves to the inner `Err`, an
`Unrecoverable` report moves to the outer `Err`. -/
def ExceptionResult.split {T E : Type} (res : ExceptionResult T E) :
    Except Report (Except E T) :=
  match res with
  | .ok t => .ok (.ok t)
  | .error e =>
    match e with
    | .unrecoverable r => .error r
    | .recoverable e2 => .ok (.error e2)

/-- Impl `impl<E: RecoverableError> Finalize for E` (lines 221-227): for a
capability-marked recoverable type, `finalize` returns the result unchanged. -/
def finalize_marked {E T : Type} (res : Except E T) : Except E T :=
  res

/-- Impl `impl Finalize for Unrecoverable` (lines 229-235): the source is
`res.expect(...)`; its panic branch requires a value of the uninhabited
`Unrecoverable` type and is embedded as elimination of the empty type. -/
def Unrecoverable.finalize {T : Type} (res : Except Unrecoverable T) : T :=
  match res with
  | .ok t => t
  | .error e => nomatch e

/-- Display strings generated by thiserror from the attributes on the two
variants (lines 10-16): the `Unrecoverable` variant is labelled
"A recoverable exception occured: {0}" and the `Recoverable` variant is
labelled "An unrecoverable exception occured: {0}". The display of the
payload `E` is passed explicitly as `eDisplay`. -/
def Exception.display {E : Type} (eDisplay : E → String) :
    Exception E → String
  | .unrecoverable r => "A recoverable exception occured: " ++ r.display
  | .recoverable e => "An unrecoverable exception occured: " ++ eDisplay e

/-! Theorems about the embedded library. -/

/-- C1: the claim states that `new_recoverable` produces the `Recoverable`
variant holding its input; the code instead builds the `Unrecoverable`
variant from the report conversion of its input (the bodies of the two
constructors are swapped relative to their names). Evaluated at the concrete
input "boom": the result is `unrecoverable (Report.mk "boom")` and
`is_recoverable` reports `false` on it. -/
theorem new_recoverable_builds_unrecoverable :
    Exception.new_recoverable (E := Nat) Report.mk "boom" =
      Exception.unrecoverable (Report.mk "boom") ∧
    (Exception.new_recoverable (E := Nat) Report.mk "boom").is_recoverable
      = false :=
  ⟨rfl, rfl⟩

/-- C2: the claim states that `new_unrecoverable` wraps its input in the
`Unrecoverable` variant as a report; the code instead takes a value of `E`
directly and builds the `Recoverable` variant around it. Evaluated at the
concrete input `7 : Nat`: the result is `recoverable 7` and `is_recoverable`
reports `true` on it. -/
theorem new_unrecoverable_builds_recoverable :
    Exception.new_unrecoverable (E := Nat) 7 = Exception.recoverable 7 ∧
    (Exception.new_unrecoverable (E := Nat) 7).is_recoverable = true :=
  ⟨rfl, rfl⟩

/-- C3: for every capability-marked raw error type `T` with a declared
conversion `conv : T → E`, converting `e : T` into `Exception E` through the
blanket `From` impl yields `recoverable (conv e)`; and when `T = E` with the
identity conversion, `try_into_recoverable` on the converted value returns
`e` unchanged — a round-trip. -/
theorem from_raw_recoverable_roundtrip {T E : Type} [RecoverableError T]
    (conv : T → E) (e : T) :
    Exception.from_raw conv e = Exception.recoverable (conv e) ∧
    (Exception.from_raw (id : T → T) e).try_into_recoverable = Except.ok e :=
  ⟨rfl, rfl⟩

/-- Witness for C3 at the concrete marked type `String` and input "boom". -/
theorem from_raw_recoverable_roundtrip_witness :
    Exception.from_raw (id : String → String) "boom" =
      Exception.recoverable "boom" ∧
    (Exception.from_raw (id : String → String) "boom").try_into_recoverable
      = Except.ok "boom" :=
  from_raw_recoverable_roundtrip id "boom"

/-- C4: for every report `r` and every recoverable type `E`, converting `r`
into `Exception E` through the `From<eyre::Report>` impl yields the
`Unrecoverable` variant wrapping `r`, and `split` on that value returns
`(some r, none)`. -/
theorem from_report_unrecoverable_split {E : Type} (r : Report) :
    Exception.from_report (E := E) r = Exception.unrecoverable r ∧
    (Exception.from_report (E := E) r).split = (some r, none) :=
  ⟨rfl, rfl⟩

/-- C5: for every function `f`, `map` leaves an `Unrecoverable` report
unchanged and sends `recoverable e` to `recoverable (f e)`. -/
theorem map_unrecoverable_id_recoverable_applies {E T : Type} (f : E → T)
    (r : Report) (e : E) :
    (Exception.unrecoverable (E := E) r).map f = Exception.unrecoverable r ∧
    (Exception.recoverable e).map f = Exception.recoverable (f e) :=
  ⟨rfl, rfl⟩

/-- C6: `split` on `ExceptionResult T E` maps `Ok t` to `Ok (Ok t)`,
`Err (recoverable e)` to `Ok (Err e)`, and `Err (unrecoverable r)` to
`Err r`. -/
theorem result_split_cases {T E : Type} (t : T) (e : E) (r : Report) :
    ExceptionResult.split (Except.ok t : ExceptionResult T E) =
      Except.ok (Except.ok t) ∧
    ExceptionResult.split
        (Except.error (Exception.recoverable e) : ExceptionResult T E) =
      Except.ok (Except.error e) ∧
    ExceptionResult.split
        (Except.error (Exception.unrecoverable r) : ExceptionResult T E) =
      Except.error r :=
  ⟨rfl, rfl, rfl⟩

/-- C7: every `Exception E` value `x` falls in exactly one of two cases. If
`x` is `recoverable e` then `try_into_recoverable` returns `e` and
`try_into_unrecoverable` returns `x` itself unchanged; if `x` is
`unrecoverable r` then `try_into_unrecoverable` returns `r` and
`try_into_recoverable` returns `x` itself unchanged. -/
theorem try_into_variant_exact {E : Type} (x : Exception E) :
    (∃ e, x = Exception.recoverable e ∧
      x.try_into_recoverable = Except.ok e ∧
      x.try_into_unrecoverable = Except.error x) ∨
    (∃ r, x = Exception.unrecoverable r ∧
      x.try_into_recoverable = Except.error x ∧
      x.try_into_unrecoverable = Except.ok r) := by
  cases x with
  | unrecoverable r => exact Or.inr ⟨r, rfl, rfl, rfl⟩
  | recoverable e => exact Or.inl ⟨e, rfl, rfl, rfl⟩

/-- C8: every `Exception Unrecoverable` value is the `Unrecoverable` variant
wrapping some report `r` (the `Recoverable` branch is uninhabited), and
`into_unrecoverable` returns that report. -/
theorem into_unrecoverable_always_report (x : Exception Unrecoverable) :
    ∃ r, x = Exception.unrecoverable r ∧ x.into_unrecoverable = r := by
  cases x with
  | unrecoverable r => exact ⟨r, rfl, rfl⟩
  | recoverable e => cases e

/-- C9: for a capability-marked recoverable type `E`, `finalize` is the
identity on `Result T E`; for the uninhabited `Unrecoverable` type, every
`Result T Unrecoverable` is an `Ok t` (no `Err` value is constructable) and
`finalize` returns that `t`. -/
theorem finalize_identity_and_extract {E T : Type} [RecoverableError E]
    (res : Except E T) (res0 : Except Unrecoverable T) :
    finalize_marked res = res ∧
    ∃ t, res0 = Except.ok t ∧ Unrecoverable.finalize res0 = t := by
  refine ⟨rfl, ?_⟩
  cases res0 with
  | ok t => exact ⟨t, rfl, rfl⟩
  | error e => cases e

/-- Witness for C9 at the concrete marked type `String` and concrete
results. -/
theorem finalize_identity_and_extract_witness :
    finalize_marked (Except.ok 1 : Except String Nat) = Except.ok 1 ∧
    ∃ t, (Except.ok 2 : Except Unrecoverable Nat) = Except.ok t ∧
      Unrecoverable.finalize (Except.ok 2 : Except Unrecoverable Nat) = t :=
  finalize_identity_and_extract (Except.ok 1) (Except.ok 2)

/-- C10: the display strings attached to the two variants name the opposite
variant: displaying `unrecoverable r` yields the message beginning
"A recoverable exception occured" followed by the display of `r`, and
displaying `recoverable e` yields the message beginning
"An unrecoverable exception occured" followed by the display of `e`. -/
theorem display_labels_swapped {E : Type} (eDisplay : E → String)
    (r : Report) (e : E) :
    Exception.display eDisplay (Exception.unrecoverable r) =
      "A recoverable exception occured: " ++ r.display ∧
    Exception.display eDisplay (Exception.recoverable e) =
      "An unrecoverable exception occured: " ++ eDisplay e :=
  ⟨rfl, rfl⟩

end RustException
